import Mathlib

/-!
Shallow embedding of the passwordless login flow in `src/pages/login.tsx`
(ddg-email-panel).

The page is a two-step flow driven by four jotai atoms
(`usernameAtom`, `otpAtom`, `loadingAtom`, `stepAtom`, lines 17-20).  We model
the atoms as a record `LoginState` and each event handler as a pure function
from the current state, together with oracles for the outcomes of the network
calls it may issue, to the final state and the ordered list of observable
events (network requests, toasts, console logs, store writes, navigation,
loading-flag writes).

Asynchronous ordering.  The handlers chain promises with `.then`, `.catch`
and `.finally`.  The traces below follow the JavaScript microtask semantics
under the realistic scheduling assumption that a network response settles
only after the microtasks already queued at request time have run.  In
particular, in `EnterOtp.continueHandle` the `.then` callback of the login
request starts the `generateAddresses` call but does not return its promise
(lines 147-181), so the outer `.finally(() => setLoading(false))` (line 195)
runs as soon as that callback returns, before the alias request settles; the
`LoginEvent.aliasSettled` marker records the instant the alias promise
settles, right before its own `.then`/`.catch` callback runs.
-/

/-- The two steps of `stepAtom` (src/pages/login.tsx line 20):
`'EnterUsername' | 'EnterOtp'`. -/
inductive LoginStep
  | EnterUsername
  | EnterOtp
deriving DecidableEq, Repr

/-- The four atoms of the page (src/pages/login.tsx lines 17-20). -/
structure LoginState where
  username : String
  otp : String
  loading : Bool
  step : LoginStep
deriving DecidableEq, Repr

/-- The `user` object destructured from a successful login response
(src/pages/login.tsx lines 148-155). -/
structure User where
  access_token : String
  cohort : String
  email : String
  username : String
deriving DecidableEq, Repr

/-- The record passed to `store.addAccount`: the `user` fields spread together
with `remark` and `nextAlias` (src/pages/login.tsx lines 159-163, 169-173). -/
structure AccountRecord where
  access_token : String
  cohort : String
  email : String
  username : String
  remark : String
  nextAlias : String
deriving DecidableEq, Repr

/-- Modelled from the spec: the error object a failed request rejects with.
The fetch wrapper (`utils/fetch`) is not under `src/`; per the spec,
"failure carries an HTTP status and status text, or a transport-level message
when no status is available".  `status = none` models an absent status field.
The handlers test `res?.status` for JavaScript truthiness, so a present
status `0` behaves like an absent one; that truthiness test is kept in the
handler definitions below. -/
structure ErrInfo where
  status : Option Nat
  statusText : String
  message : String
deriving DecidableEq, Repr

/-- Oracle for the outcome of the OTP request (`otpRequest`, lines 22-29);
its success value is never consumed by the handler. -/
inductive OtpOutcome
  | ok
  | err (e : ErrInfo)
deriving DecidableEq, Repr

/-- Oracle for the outcome of the login request (`loginRequest`, lines 31-39). -/
inductive LoginOutcome
  | ok (user : User)
  | err (e : ErrInfo)
deriving DecidableEq, Repr

/-- Oracle for the outcome of the alias-generation call
(`generateAddresses`, line 157); on success the handler reads `res.address`. -/
inductive AliasOutcome
  | ok (address : String)
  | err (e : ErrInfo)
deriving DecidableEq, Repr

/-- Observable events emitted by the handlers, in execution order.
`aliasSettled` is a trace marker for the instant the `generateAddresses`
promise settles (see the header comment on asynchronous ordering). -/
inductive LoginEvent
  | toastError (msg : String)
  | toastSuccess (msg : String)
  | logError (tag : String)
  | netOtpRequest (username : String)
  | netLoginRequest (username : String) (otp : String)
  | netGenerateAddresses (token : String)
  | storeAddAccount (record : AccountRecord)
  | navPush (url : String)
  | setLoading (b : Bool)
  | aliasSettled
deriving DecidableEq, Repr

/-- Modelled from the spec: the test of `USERNAME_REGEX`
(`src/lib/constants`, which is not under `src/` here).  The spec constrains
the identifier to "letters and digits only" and non-empty. -/
def USERNAME_REGEX_test (s : String) : Bool :=
  !s.data.isEmpty && s.data.all fun c => c.isAlpha || c.isDigit

/-- Validation outcomes for the identifier checks at the top of
`EnterUsername.continueHandle` (src/pages/login.tsx lines 51-58). -/
inductive ValidationResult
  | Ok
  | EmptyInput
  | InvalidCharacters
deriving DecidableEq, Repr

/-- The identifier validation inlined at the top of the `EnterUsername`
submit handler (src/pages/login.tsx lines 51-58): empty string first, then
the `USERNAME_REGEX` test. -/
def validate (username : String) : ValidationResult :=
  if username = "" then ValidationResult.EmptyInput
  else if !USERNAME_REGEX_test username then ValidationResult.InvalidCharacters
  else ValidationResult.Ok

namespace EnterUsername

/-- `continueHandle` of the `EnterUsername` component
(src/pages/login.tsx lines 49-74).  Empty / invalid usernames toast an error
and return before any network call.  Otherwise `setLoading(true)` is called,
the OTP request is issued, `.then` sets the step to `EnterOtp`, `.catch`
logs and toasts the error (status plus statusText when `res?.status` is
truthy, else the transport message), and `.finally` runs
`setLoading(false)`. -/
def continueHandle (s : LoginState) (res : OtpOutcome) :
    LoginState × List LoginEvent :=
  if s.username = "" then
    (s, [LoginEvent.toastError "Duck Address cannot be empty"])
  else if !USERNAME_REGEX_test s.username then
    (s, [LoginEvent.toastError "Duck Address can only contain letters and numbers"])
  else
    match res with
    | OtpOutcome.ok =>
        ({ s with loading := false, step := LoginStep.EnterOtp },
          [LoginEvent.setLoading true,
            LoginEvent.netOtpRequest s.username,
            LoginEvent.setLoading false])
    | OtpOutcome.err e =>
        ({ s with loading := false },
          [LoginEvent.setLoading true,
            LoginEvent.netOtpRequest s.username,
            LoginEvent.logError "send login link error",
            LoginEvent.toastError
              (match e.status with
                | some n =>
                    if n ≠ 0 then toString n ++ " - " ++ e.statusText
                    else e.message
                | none => e.message),
            LoginEvent.setLoading false])

end EnterUsername

/-- The surrounding-whitespace trim applied by `otp.trim()`
(src/pages/login.tsx line 146): drop whitespace characters from both ends.
Defined structurally over the character list so it evaluates in the
kernel (`String.trim` from the core library computes the same string through
`Substring` auxiliaries that do not reduce definitionally). -/
def trimString (s : String) : String :=
  String.mk
    (((s.data.dropWhile Char.isWhitespace).reverse.dropWhile
        Char.isWhitespace).reverse)

namespace EnterOtp

/-- `continueHandle` of the `EnterOtp` component
(src/pages/login.tsx lines 139-196).  An empty OTP toasts an error and
returns before any network call.  Otherwise `setLoading(true)` is called and
the login request is issued with the trimmed OTP.  On login success the
`.then` callback starts `generateAddresses(user.access_token)` and returns
without awaiting it, so the outer `.finally` clears the loading flag before
the alias promise settles (marker `aliasSettled`); when it settles, its
`.then` (or `.catch`, which also logs) builds the account record — with
`nextAlias` the generated address, or `""` on alias failure — calls
`store.addAccount` and pushes the navigation, and its `.finally` toasts the
success notice.  On login failure the `.catch` logs and toasts "Unauthorized"
for a truthy status equal to 401, status plus statusText for any other truthy
status, else the transport message; `.finally` clears the loading flag.
`maskEmail` (from `utils/maskEmail`, external) and the index returned by
`store.addAccount` (`utils/store`, external) are supplied as parameters. -/
def continueHandle (maskEmail : String → String) (storeIndex : Nat)
    (s : LoginState) (login : LoginOutcome) (aliasRes : AliasOutcome) :
    LoginState × List LoginEvent :=
  if s.otp = "" then
    (s, [LoginEvent.toastError "One-time Passphrase cannot be empty"])
  else
    match login with
    | LoginOutcome.ok user =>
        match aliasRes with
        | AliasOutcome.ok address =>
            ({ s with loading := false },
              [LoginEvent.setLoading true,
                LoginEvent.netLoginRequest s.username (trimString s.otp),
                LoginEvent.netGenerateAddresses user.access_token,
                LoginEvent.setLoading false,
                LoginEvent.aliasSettled,
                LoginEvent.storeAddAccount
                  { access_token := user.access_token, cohort := user.cohort,
                    email := user.email, username := user.username,
                    remark := maskEmail user.email, nextAlias := address },
                LoginEvent.navPush ("/email/?id=" ++ toString storeIndex),
                LoginEvent.toastSuccess "Login Success"])
        | AliasOutcome.err _ =>
            ({ s with loading := false },
              [LoginEvent.setLoading true,
                LoginEvent.netLoginRequest s.username (trimString s.otp),
                LoginEvent.netGenerateAddresses user.access_token,
                LoginEvent.setLoading false,
                LoginEvent.aliasSettled,
                LoginEvent.logError "generate alias error",
                LoginEvent.storeAddAccount
                  { access_token := user.access_token, cohort := user.cohort,
                    email := user.email, username := user.username,
                    remark := maskEmail user.email, nextAlias := "" },
                LoginEvent.navPush ("/email/?id=" ++ toString storeIndex),
                LoginEvent.toastSuccess "Login Success"])
    | LoginOutcome.err e =>
        ({ s with loading := false },
          [LoginEvent.setLoading true,
            LoginEvent.netLoginRequest s.username (trimString s.otp),
            LoginEvent.logError "login error",
            LoginEvent.toastError
              (match e.status with
                | some n =>
                    if n ≠ 0 then
                      if n = 401 then "Unauthorized"
                      else toString n ++ " - " ++ e.statusText
                    else e.message
                | none => e.message),
            LoginEvent.setLoading false])

/-- The `onClick` of the Back button of the `EnterOtp` component
(src/pages/login.tsx lines 236-244): `setOtp(''); setStep('EnterUsername')`;
no network call, no other effect. -/
def backHandle (s : LoginState) : LoginState × List LoginEvent :=
  ({ s with otp := "", step := LoginStep.EnterUsername }, [])

end EnterOtp

/-- Event classifier: account-store writes. -/
def isStoreAddAccount : LoginEvent → Bool
  | LoginEvent.storeAddAccount _ => true
  | _ => false

/-- Event classifier: navigation events. -/
def isNavPush : LoginEvent → Bool
  | LoginEvent.navPush _ => true
  | _ => false

/-- Event classifier: any network request. -/
def isNetEvent : LoginEvent → Bool
  | LoginEvent.netOtpRequest _ => true
  | LoginEvent.netLoginRequest _ _ => true
  | LoginEvent.netGenerateAddresses _ => true
  | _ => false

/-- Event classifier: login requests. -/
def isNetLoginRequest : LoginEvent → Bool
  | LoginEvent.netLoginRequest _ _ => true
  | _ => false

/-- Event classifier: error toasts. -/
def isToastError : LoginEvent → Bool
  | LoginEvent.toastError _ => true
  | _ => false

/-- Event classifier: writes to the loading flag. -/
def isSetLoading : LoginEvent → Bool
  | LoginEvent.setLoading _ => true
  | _ => false

/-- Event classifier: the alias-settlement marker. -/
def isAliasSettled : LoginEvent → Bool
  | LoginEvent.aliasSettled => true
  | _ => false

/-- Event classifier: `setLoading false`, the busy-flag-clear event. -/
def isClearBusy : LoginEvent → Bool
  | LoginEvent.setLoading b => !b
  | _ => false

/-- The prefix of a trace strictly before the alias call settles. -/
def beforeAliasSettled (l : List LoginEvent) : List LoginEvent :=
  l.takeWhile fun e => !isAliasSettled e

/-- Whether a trace clears the busy flag strictly before the alias call
settles. -/
def clearsBusyBeforeAliasSettles (l : List LoginEvent) : Bool :=
  (beforeAliasSettled l).any isClearBusy

/-- C9: `cancelOtp` (the Back button of `EnterOtp`) always ends with state
`EnterIdentifier` (`EnterUsername`) and an empty OTP value, makes no network
call (its event trace is empty), and is idempotent: applying it twice yields
the same end state as applying it once. -/
theorem C9_cancelOtp_resets_and_idempotent (s : LoginState) :
    (EnterOtp.backHandle s).1.step = LoginStep.EnterUsername ∧
    (EnterOtp.backHandle s).1.otp = "" ∧
    (EnterOtp.backHandle s).2 = [] ∧
    EnterOtp.backHandle (EnterOtp.backHandle s).1 = EnterOtp.backHandle s := by
  obtain ⟨u, o, l, st⟩ := s
  simp [EnterOtp.backHandle]

/-- C10: `cancelOtp` leaves the identifier value (and the loading flag)
unchanged — only the OTP value and the step are modified — so the previously
entered identifier is still held when the flow returns to `EnterUsername`. -/
theorem C10_cancelOtp_preserves_username (s : LoginState) :
    (EnterOtp.backHandle s).1.username = s.username ∧
    (EnterOtp.backHandle s).1.loading = s.loading := by
  obtain ⟨u, o, l, st⟩ := s
  simp [EnterOtp.backHandle]

/-- C1: for every successful login (non-empty OTP, login request succeeds),
the trace contains exactly one `store.addAccount` call — with `nextAlias` the
generated address when the alias call succeeds, `""` when it fails — and
exactly one navigation event, keyed by the index the store returned. -/
theorem C1_login_success_persists_once (maskEmail : String → String)
    (storeIndex : Nat) (s : LoginState) (user : User) (aliasRes : AliasOutcome)
    (h : s.otp ≠ "") :
    ((EnterOtp.continueHandle maskEmail storeIndex s (LoginOutcome.ok user)
          aliasRes).2).filter isStoreAddAccount =
      [LoginEvent.storeAddAccount
        { access_token := user.access_token, cohort := user.cohort,
          email := user.email, username := user.username,
          remark := maskEmail user.email,
          nextAlias :=
            match aliasRes with
            | AliasOutcome.ok address => address
            | AliasOutcome.err _ => "" }] ∧
    ((EnterOtp.continueHandle maskEmail storeIndex s (LoginOutcome.ok user)
          aliasRes).2).filter isNavPush =
      [LoginEvent.navPush ("/email/?id=" ++ toString storeIndex)] := by
  cases aliasRes <;>
    simp [EnterOtp.continueHandle, h, isStoreAddAccount, isNavPush]

/-- Witness for C1 at the scenario of the spec: identifier `alice1`,
alias call succeeding with `xyz123@duck.com`, store returning index 0. -/
theorem C1_login_success_persists_once_witness :
    ((EnterOtp.continueHandle (fun e => e) 0
        { username := "alice1", otp := "123456", loading := true,
          step := LoginStep.EnterOtp }
        (LoginOutcome.ok
          { access_token := "tok", cohort := "c1", email := "alice1@duck.com",
            username := "alice1" })
        (AliasOutcome.ok "xyz123@duck.com")).2).filter isStoreAddAccount =
      [LoginEvent.storeAddAccount
        { access_token := "tok", cohort := "c1", email := "alice1@duck.com",
          username := "alice1", remark := "alice1@duck.com",
          nextAlias := "xyz123@duck.com" }] ∧
    ((EnterOtp.continueHandle (fun e => e) 0
        { username := "alice1", otp := "123456", loading := true,
          step := LoginStep.EnterOtp }
        (LoginOutcome.ok
          { access_token := "tok", cohort := "c1", email := "alice1@duck.com",
            username := "alice1" })
        (AliasOutcome.ok "xyz123@duck.com")).2).filter isNavPush =
      [LoginEvent.navPush "/email/?id=0"] :=
  C1_login_success_persists_once (fun e => e) 0
    { username := "alice1", otp := "123456", loading := true,
      step := LoginStep.EnterOtp }
    { access_token := "tok", cohort := "c1", email := "alice1@duck.com",
      username := "alice1" }
    (AliasOutcome.ok "xyz123@duck.com") (by decide)

/-- C6: validation fails with the empty-input reason on the empty string,
fails with the invalid-characters reason on any non-empty string containing a
character that is neither a letter nor a digit, and succeeds on every
non-empty string of letters and digits only. -/
theorem C6_validate_complete (u : String) :
    (u = "" → validate u = ValidationResult.EmptyInput) ∧
    (u ≠ "" → (∃ c ∈ u.data, ¬(c.isAlpha || c.isDigit) = true) →
      validate u = ValidationResult.InvalidCharacters) ∧
    (u ≠ "" → (∀ c ∈ u.data, (c.isAlpha || c.isDigit) = true) →
      validate u = ValidationResult.Ok) := by
  refine ⟨fun h => by simp [validate, h], ?_, ?_⟩
  · rintro h ⟨c, hc, hbad⟩
    have hfalse : USERNAME_REGEX_test u = false := by
      unfold USERNAME_REGEX_test
      rcases Bool.eq_false_or_eq_true
          (u.data.all fun c => c.isAlpha || c.isDigit) with ht | hf
      · rw [List.all_eq_true] at ht
        exact absurd (ht c hc) hbad
      · simp [hf]
    simp [validate, h, hfalse]
  · intro h hall
    have hne : u.data.isEmpty = false := by
      cases hd : u.data with
      | nil => exact absurd (String.ext hd) h
      | cons a t => rfl
    have htrue : USERNAME_REGEX_test u = true := by
      unfold USERNAME_REGEX_test
      simp [hne, List.all_eq_true]
      intro x hx
      simpa using hall x hx
    simp [validate, h, htrue]

/-- Witness for C6: `alice1` validates, `a!b` is rejected for its characters,
and the empty string is rejected as empty. -/
theorem C6_validate_complete_witness :
    validate "" = ValidationResult.EmptyInput ∧
    validate "a!b" = ValidationResult.InvalidCharacters ∧
    validate "alice1" = ValidationResult.Ok :=
  ⟨(C6_validate_complete "").1 rfl,
    (C6_validate_complete "a!b").2.1 (by decide)
      ⟨'!', by decide, by decide⟩,
    (C6_validate_complete "alice1").2.2 (by decide) (by decide)⟩

/-- C7: for every identifier that fails validation, the `EnterUsername` submit
handler issues zero network calls, reports the validation reason as an error
toast, leaves the state (hence the step) unchanged, and never writes the
loading flag. -/
theorem C7_invalid_identifier_no_call (s : LoginState) (res : OtpOutcome)
    (h : validate s.username ≠ ValidationResult.Ok) :
    (EnterUsername.continueHandle s res).1 = s ∧
    ((EnterUsername.continueHandle s res).2).filter isNetEvent = [] ∧
    ((EnterUsername.continueHandle s res).2).filter isSetLoading = [] ∧
    ((EnterUsername.continueHandle s res).2).filter isToastError =
      [LoginEvent.toastError
        (if s.username = "" then "Duck Address cannot be empty"
          else "Duck Address can only contain letters and numbers")] := by
  by_cases h1 : s.username = ""
  · simp [EnterUsername.continueHandle, h1, isNetEvent, isSetLoading,
      isToastError]
  · have h2 : USERNAME_REGEX_test s.username = false := by
      rcases Bool.eq_false_or_eq_true (USERNAME_REGEX_test s.username)
        with ht | hf
      · exact absurd (by simp [validate, h1, ht]) h
      · exact hf
    simp [EnterUsername.continueHandle, h1, h2, isNetEvent, isSetLoading,
      isToastError]

/-- Witness for C7 at the empty identifier. -/
theorem C7_invalid_identifier_no_call_witness :
    (EnterUsername.continueHandle
        { username := "", otp := "", loading := false,
          step := LoginStep.EnterUsername } OtpOutcome.ok).1 =
      { username := "", otp := "", loading := false,
        step := LoginStep.EnterUsername } ∧
    ((EnterUsername.continueHandle
        { username := "", otp := "", loading := false,
          step := LoginStep.EnterUsername } OtpOutcome.ok).2).filter
        isNetEvent = [] ∧
    ((EnterUsername.continueHandle
        { username := "", otp := "", loading := false,
          step := LoginStep.EnterUsername } OtpOutcome.ok).2).filter
        isSetLoading = [] ∧
    ((EnterUsername.continueHandle
        { username := "", otp := "", loading := false,
          step := LoginStep.EnterUsername } OtpOutcome.ok).2).filter
        isToastError = [LoginEvent.toastError "Duck Address cannot be empty"] :=
  C7_invalid_identifier_no_call
    { username := "", otp := "", loading := false,
      step := LoginStep.EnterUsername } OtpOutcome.ok (by decide)

/-- C8: for every `EnterUsername` submission whose OTP request succeeds
(validation necessarily passed for the request to be issued), the final step
is `EnterOtp` and the loading flag ends false. -/
theorem C8_otp_success_transitions (s : LoginState)
    (h : validate s.username = ValidationResult.Ok) :
    (EnterUsername.continueHandle s OtpOutcome.ok).1.step = LoginStep.EnterOtp ∧
    (EnterUsername.continueHandle s OtpOutcome.ok).1.loading = false := by
  obtain ⟨u, o, l, st⟩ := s
  have h1 : ¬u = "" := by
    intro h1
    simp [validate, h1] at h
  have h2 : USERNAME_REGEX_test u = true := by
    rcases Bool.eq_false_or_eq_true (USERNAME_REGEX_test u) with ht | hf
    · exact ht
    · simp [validate, h1, hf] at h
  simp [EnterUsername.continueHandle, h1, h2]

/-- Witness for C8 at identifier `alice1`. -/
theorem C8_otp_success_transitions_witness :
    (EnterUsername.continueHandle
        { username := "alice1", otp := "", loading := false,
          step := LoginStep.EnterUsername } OtpOutcome.ok).1.step =
      LoginStep.EnterOtp ∧
    (EnterUsername.continueHandle
        { username := "alice1", otp := "", loading := false,
          step := LoginStep.EnterUsername } OtpOutcome.ok).1.loading = false :=
  C8_otp_success_transitions
    { username := "alice1", otp := "", loading := false,
      step := LoginStep.EnterUsername } (by decide)

/-- C5: the step changes in the `EnterUsername` handler only on OTP-request
success after passing validation (and then only to `EnterOtp`); the
`EnterOtp` submit handler never changes the step (in particular login failure
keeps the user in `EnterOtp`); and the only backward transition, the Back
button, sets the step to `EnterUsername`. -/
theorem C5_step_transitions (maskEmail : String → String) (storeIndex : Nat)
    (s : LoginState) (res : OtpOutcome) (login : LoginOutcome)
    (aliasRes : AliasOutcome) :
    ((EnterUsername.continueHandle s res).1.step ≠ s.step →
      res = OtpOutcome.ok ∧ validate s.username = ValidationResult.Ok ∧
      (EnterUsername.continueHandle s res).1.step = LoginStep.EnterOtp) ∧
    (EnterOtp.continueHandle maskEmail storeIndex s login aliasRes).1.step =
      s.step ∧
    (EnterOtp.backHandle s).1.step = LoginStep.EnterUsername := by
  obtain ⟨u, o, l, st⟩ := s
  refine ⟨?_, ?_, by simp [EnterOtp.backHandle]⟩
  · intro hchange
    by_cases h1 : u = ""
    · simp [EnterUsername.continueHandle, h1] at hchange
    · rcases Bool.eq_false_or_eq_true (USERNAME_REGEX_test u) with ht | hf
      · cases res with
        | ok =>
            exact ⟨rfl, by simp [validate, h1, ht],
              by simp [EnterUsername.continueHandle, h1, ht]⟩
        | err e => simp [EnterUsername.continueHandle, h1, ht] at hchange
      · simp [EnterUsername.continueHandle, h1, hf] at hchange
  · by_cases h2 : o = ""
    · simp [EnterOtp.continueHandle, h2]
    · cases login with
      | ok user => cases aliasRes <;> simp [EnterOtp.continueHandle, h2]
      | err e => simp [EnterOtp.continueHandle, h2]

/-- Witness for C5: a concrete forward transition out of `EnterUsername`
forces OTP-request success and passed validation. -/
theorem C5_step_transitions_witness :
    OtpOutcome.ok = OtpOutcome.ok ∧
    validate "alice1" = ValidationResult.Ok ∧
    (EnterUsername.continueHandle
        { username := "alice1", otp := "", loading := false,
          step := LoginStep.EnterUsername } OtpOutcome.ok).1.step =
      LoginStep.EnterOtp :=
  (C5_step_transitions (fun e => e) 0
      { username := "alice1", otp := "", loading := false,
        step := LoginStep.EnterUsername } OtpOutcome.ok
      (LoginOutcome.ok
        { access_token := "tok", cohort := "c1", email := "alice1@duck.com",
          username := "alice1" })
      (AliasOutcome.ok "xyz123@duck.com")).1 (by decide)

/-- C4: for every failed request (both the OTP request made after passing
validation and the login request made with a non-empty OTP): when a nonzero
status code is present the toast is the status, a dash, and the status text —
except a login failure with status 401, which toasts "Unauthorized"; when no
status is present the transport-level message is toasted; in all these cases
the step is unchanged and the loading flag ends false. -/
theorem C4_failure_messages (maskEmail : String → String) (storeIndex : Nat)
    (s : LoginState) (e : ErrInfo) (aliasRes : AliasOutcome)
    (hstatus : ∀ n, e.status = some n → n ≠ 0) :
    (s.username ≠ "" → USERNAME_REGEX_test s.username = true →
      (EnterUsername.continueHandle s (OtpOutcome.err e)).1.step = s.step ∧
      (EnterUsername.continueHandle s (OtpOutcome.err e)).1.loading = false ∧
      ((EnterUsername.continueHandle s (OtpOutcome.err e)).2).filter
          isToastError =
        [LoginEvent.toastError
          (match e.status with
            | some n => toString n ++ " - " ++ e.statusText
            | none => e.message)]) ∧
    (s.otp ≠ "" →
      (EnterOtp.continueHandle maskEmail storeIndex s (LoginOutcome.err e)
          aliasRes).1.step = s.step ∧
      (EnterOtp.continueHandle maskEmail storeIndex s (LoginOutcome.err e)
          aliasRes).1.loading = false ∧
      ((EnterOtp.continueHandle maskEmail storeIndex s (LoginOutcome.err e)
          aliasRes).2).filter isToastError =
        [LoginEvent.toastError
          (match e.status with
            | some n =>
                if n = 401 then "Unauthorized"
                else toString n ++ " - " ++ e.statusText
            | none => e.message)]) := by
  obtain ⟨u, o, l, st⟩ := s
  obtain ⟨est, etext, emsg⟩ := e
  constructor
  · intro h1 h2
    cases est with
    | none => simp [EnterUsername.continueHandle, h1, h2, isToastError]
    | some n =>
        have hn : n ≠ 0 := hstatus n rfl
        simp [EnterUsername.continueHandle, h1, h2, hn, isToastError]
  · intro h2
    cases est with
    | none => simp [EnterOtp.continueHandle, h2, isToastError]
    | some n =>
        have hn : n ≠ 0 := hstatus n rfl
        simp [EnterOtp.continueHandle, h2, hn, isToastError]

/-- Witness for C4 at the spec's example: login failure with status 500 and
status text "Server Error" toasts "500 - Server Error", stays in `EnterOtp`,
and ends with the loading flag false. -/
theorem C4_failure_messages_witness :
    (EnterOtp.continueHandle (fun e => e) 0
        { username := "alice1", otp := "123456", loading := false,
          step := LoginStep.EnterOtp }
        (LoginOutcome.err
          { status := some 500, statusText := "Server Error", message := "" })
        (AliasOutcome.ok "xyz123@duck.com")).1.step = LoginStep.EnterOtp ∧
    (EnterOtp.continueHandle (fun e => e) 0
        { username := "alice1", otp := "123456", loading := false,
          step := LoginStep.EnterOtp }
        (LoginOutcome.err
          { status := some 500, statusText := "Server Error", message := "" })
        (AliasOutcome.ok "xyz123@duck.com")).1.loading = false ∧
    ((EnterOtp.continueHandle (fun e => e) 0
        { username := "alice1", otp := "123456", loading := false,
          step := LoginStep.EnterOtp }
        (LoginOutcome.err
          { status := some 500, statusText := "Server Error", message := "" })
        (AliasOutcome.ok "xyz123@duck.com")).2).filter isToastError =
      [LoginEvent.toastError "500 - Server Error"] :=
  (C4_failure_messages (fun e => e) 0
      { username := "alice1", otp := "123456", loading := false,
        step := LoginStep.EnterOtp }
      { status := some 500, statusText := "Server Error", message := "" }
      (AliasOutcome.ok "xyz123@duck.com")
      (by intro n hn; injection hn with h; subst h; decide)).2 (by decide)

/-- C3 counterexample: the emptiness check happens before the trim, so with
stored OTP " " (one space, non-empty) the handler issues a login request
whose OTP value is the empty string — refuting "a login request is never
issued with an empty OTP value". -/
theorem C3_counterexample_whitespace_otp :
    ((EnterOtp.continueHandle (fun e => e) 0
        { username := "alice1", otp := " ", loading := false,
          step := LoginStep.EnterOtp }
        (LoginOutcome.ok
          { access_token := "tok", cohort := "c1", email := "alice1@duck.com",
            username := "alice1" })
        (AliasOutcome.ok "xyz123@duck.com")).2).filter isNetLoginRequest =
      [LoginEvent.netLoginRequest "alice1" ""] := by
  decide

/-- C3 amended: `submitOtp` fails locally with the empty-OTP toast and issues
no call at all when the stored OTP value is the empty string; otherwise it
issues exactly one login request carrying the whitespace-trimmed OTP — so a
login request is never issued when the stored OTP value is empty, but it may
carry an empty trimmed OTP when the stored value is non-empty whitespace. -/
theorem C3_submitOtp_empty_check_and_trim (maskEmail : String → String)
    (storeIndex : Nat) (s : LoginState) (login : LoginOutcome)
    (aliasRes : AliasOutcome) :
    (s.otp = "" →
      EnterOtp.continueHandle maskEmail storeIndex s login aliasRes =
        (s, [LoginEvent.toastError "One-time Passphrase cannot be empty"])) ∧
    (s.otp ≠ "" →
      ((EnterOtp.continueHandle maskEmail storeIndex s login aliasRes).2).filter
          isNetLoginRequest =
        [LoginEvent.netLoginRequest s.username (trimString s.otp)]) := by
  constructor
  · intro h
    simp [EnterOtp.continueHandle, h]
  · intro h
    cases login with
    | ok user =>
        cases aliasRes <;>
          simp [EnterOtp.continueHandle, h, isNetLoginRequest]
    | err e => simp [EnterOtp.continueHandle, h, isNetLoginRequest]

/-- Witness for the amended C3: the OTP " 123456 " is trimmed to "123456" in
the single login request issued. -/
theorem C3_submitOtp_empty_check_and_trim_witness :
    ((EnterOtp.continueHandle (fun e => e) 0
        { username := "alice1", otp := " 123456 ", loading := false,
          step := LoginStep.EnterOtp }
        (LoginOutcome.ok
          { access_token := "tok", cohort := "c1", email := "alice1@duck.com",
            username := "alice1" })
        (AliasOutcome.ok "xyz123@duck.com")).2).filter isNetLoginRequest =
      [LoginEvent.netLoginRequest "alice1" "123456"] :=
  (C3_submitOtp_empty_check_and_trim (fun e => e) 0
      { username := "alice1", otp := " 123456 ", loading := false,
        step := LoginStep.EnterOtp }
      (LoginOutcome.ok
        { access_token := "tok", cohort := "c1", email := "alice1@duck.com",
          username := "alice1" })
      (AliasOutcome.ok "xyz123@duck.com")).2 (by decide)

/-- C2 counterexample: on a successful login the `.then` callback starts the
alias call but does not return its promise, so the outer
`.finally(() => setLoading(false))` runs before the alias promise settles —
a concrete trace in which the busy-flag-clear event precedes the
alias-settlement marker. -/
theorem C2_counterexample_busy_clear_precedes_alias :
    clearsBusyBeforeAliasSettles
      ((EnterOtp.continueHandle (fun e => e) 0
          { username := "alice1", otp := "123456", loading := false,
            step := LoginStep.EnterOtp }
          (LoginOutcome.ok
            { access_token := "tok", cohort := "c1",
              email := "alice1@duck.com", username := "alice1" })
          (AliasOutcome.ok "xyz123@duck.com")).2) = true := by
  decide

/-- C2 amended: for every `submitOtp` whose login request succeeds, the
busy-flag-clear event occurs strictly before the alias call settles
(regardless of the alias outcome), while persistence and navigation do wait
for alias settlement: no store write and no navigation event occurs before
the alias-settlement marker. -/
theorem C2_busy_clear_before_alias_settles (maskEmail : String → String)
    (storeIndex : Nat) (s : LoginState) (user : User) (aliasRes : AliasOutcome)
    (h : s.otp ≠ "") :
    (beforeAliasSettled
        (EnterOtp.continueHandle maskEmail storeIndex s (LoginOutcome.ok user)
            aliasRes).2).any isClearBusy = true ∧
    (beforeAliasSettled
        (EnterOtp.continueHandle maskEmail storeIndex s (LoginOutcome.ok user)
            aliasRes).2).filter isStoreAddAccount = [] ∧
    (beforeAliasSettled
        (EnterOtp.continueHandle maskEmail storeIndex s (LoginOutcome.ok user)
            aliasRes).2).filter isNavPush = [] := by
  cases aliasRes <;>
    simp [EnterOtp.continueHandle, h, beforeAliasSettled, List.takeWhile_cons,
      isAliasSettled, isClearBusy, isStoreAddAccount, isNavPush]

/-- Witness for the amended C2 on a concrete successful login with a
successful alias call. -/
theorem C2_busy_clear_before_alias_settles_witness :
    (beforeAliasSettled
        (EnterOtp.continueHandle (fun e => e) 0
            { username := "alice1", otp := "123456", loading := false,
              step := LoginStep.EnterOtp }
            (LoginOutcome.ok
              { access_token := "tok", cohort := "c1",
                email := "alice1@duck.com", username := "alice1" })
            (AliasOutcome.ok "xyz123@duck.com")).2).any isClearBusy = true ∧
    (beforeAliasSettled
        (EnterOtp.continueHandle (fun e => e) 0
            { username := "alice1", otp := "123456", loading := false,
              step := LoginStep.EnterOtp }
            (LoginOutcome.ok
              { access_token := "tok", cohort := "c1",
                email := "alice1@duck.com", username := "alice1" })
            (AliasOutcome.ok "xyz123@duck.com")).2).filter
        isStoreAddAccount = [] ∧
    (beforeAliasSettled
        (EnterOtp.continueHandle (fun e => e) 0
            { username := "alice1", otp := "123456", loading := false,
              step := LoginStep.EnterOtp }
            (LoginOutcome.ok
              { access_token := "tok", cohort := "c1",
                email := "alice1@duck.com", username := "alice1" })
            (AliasOutcome.ok "xyz123@duck.com")).2).filter isNavPush = [] :=
  C2_busy_clear_before_alias_settles (fun e => e) 0
    { username := "alice1", otp := "123456", loading := false,
      step := LoginStep.EnterOtp }
    { access_token := "tok", cohort := "c1", email := "alice1@duck.com",
      username := "alice1" }
    (AliasOutcome.ok "xyz123@duck.com") (by decide)
